import Mathlib

/-!
# TechStackGovernance: verification of the agentic workflow pipeline

Shallow embedding of the repository's Python sources:

* `DiscoveryAgent`        — src/discovery_agent.py (retry loop of
  `gather_repo_content_node`, snapshot production);
* `CodeAnalysisAgent`     — src/code_analysis_agent.py (bounded reflection
  loop, result collection, PDF story construction);
* `RecommendationAgent`   — src/recommendation_agent.py (bounded reflection
  loop, result collection, PDF story construction);
* `AgenticWorkflow`       — src/agentic_workflow.py (the three-node linear
  langgraph pipeline);
* `MainScript`            — src/main.py (top-level driver and its error
  handling).

External collaborators are abstracted exactly as the sources use them: the
LLM is an oracle `Nat → String` giving the response text of the n-th
`llm.invoke` call of a stage, and the repository host is an oracle
`Nat → Attempt` giving the outcome of the n-th API attempt.  The langgraph
`StateGraph.invoke` is modelled as sequential application of the node
functions along the graph's edges, where a node that returns `None` in
Python contributes no state update (langgraph treats a `None` return as an
empty update; in-place mutations of the per-step state dict are not written
back to the graph channels).  Loops that Python writes as unbounded
`while`-style graph cycles are given a fuel parameter; all theorems hold
for every sufficient fuel.
-/

/-! ## String helpers

Executable models of the Python string operations used by the sources
(`in`, `startswith`, `lower`, `strip`, `count`, `replace`, `split`).
-/

/-- `isPrefixB p l` decides whether `p` is a prefix of `l`. -/
def isPrefixB : List Char → List Char → Bool
  | [], _ => true
  | _ :: _, [] => false
  | a :: as, b :: bs => a = b && isPrefixB as bs

/-- `subOccurs needle hay` decides whether `needle` occurs as a contiguous
sublist of `hay` (Python's `needle in hay` on strings). -/
def subOccurs (needle : List Char) : List Char → Bool
  | [] => isPrefixB needle []
  | c :: t => isPrefixB needle (c :: t) || subOccurs needle t

/-- Python `needle in hay` for strings. -/
def strContains (hay needle : String) : Bool :=
  subOccurs needle.toList hay.toList

/-- Python `s.startswith(p)`. -/
def strStarts (s p : String) : Bool :=
  isPrefixB p.toList s.toList

/-- Python `s.lower()` (ASCII case folding, as used on ASCII markdown). -/
def lowerStr (s : String) : String :=
  String.mk (s.toList.map Char.toLower)

/-- Python `s.strip(c)`: remove leading and trailing occurrences of the
single character `c`. -/
def stripChar (c : Char) (s : String) : String :=
  String.mk (((s.toList.dropWhile (fun a => a = c)).reverse.dropWhile
    (fun a => a = c)).reverse)

/-- Python `s.strip()`: remove leading and trailing whitespace. -/
def trimStr (s : String) : String :=
  String.mk (((s.toList.dropWhile Char.isWhitespace).reverse.dropWhile
    Char.isWhitespace).reverse)

/-- Python `s.count(c)` for a single-character needle. -/
def countChar (c : Char) (s : String) : Nat :=
  s.toList.count c

/-- One fuelled step list for Python `s.replace(pat, rep)`: replace
non-overlapping occurrences left to right.  The fuel is the length of the
scanned list; each step consumes at least one character when `pat` is
non-empty, so the initial fuel always suffices. -/
def replaceAux (pat rep : List Char) : Nat → List Char → List Char
  | _, [] => []
  | 0, l => l
  | fuel + 1, c :: t =>
    if isPrefixB pat (c :: t) && !pat.isEmpty then
      rep ++ replaceAux pat rep fuel (List.drop (pat.length - 1) t)
    else
      c :: replaceAux pat rep fuel t

/-- Python `s.replace(pat, rep)` for non-empty `pat`. -/
def strReplace (s pat rep : String) : String :=
  String.mk (replaceAux pat.toList rep.toList s.toList.length s.toList)

/-- Python `s.split(sep)` (used as `result.split('\n\n')`). -/
def splitSections (s : String) : List String :=
  s.splitOn "\n\n"

/-- The three-backtick code-fence marker, built from character codes. -/
def fenceMarker : String :=
  String.mk [Char.ofNat 96, Char.ofNat 96, Char.ofNat 96]

namespace DiscoveryAgent

/-! ## Discovery agent (src/discovery_agent.py)

`gather_repo_content_node` talks to the repository host inside a
`for attempt in range(max_retries)` loop: a successful attempt returns the
snapshot dict, a `GithubException` on attempt `a < max_retries - 1` sleeps
`2 ** a` seconds and retries, and a `GithubException` on the last attempt
returns `None`.  The host is abstracted as an oracle from the attempt index
to the attempt's outcome; the rate-limit branch (which only sleeps until
the host's reported reset time) is outside the oracle's alphabet, matching
runs where the rate limit is not exhausted. -/

/-- Outcome of one host-API attempt: either the gathered repository data,
or a raised `GithubException`. -/
inductive Attempt where
  | ok (file_tree file_contents programming_languages : String)
  | ghError (msg : String)
deriving Repr, DecidableEq

/-- The snapshot dict returned by `gather_repo_content_node` on success. -/
structure DiscoveryResult where
  file_tree : String
  file_contents : String
  programming_languages : String
deriving Repr, DecidableEq

/-- `max_retries = 3` in `gather_repo_content_node`. -/
def max_retries : Nat := 3

/-- The retry loop of `gather_repo_content_node`, from the given attempt
index with the given number of remaining loop iterations.  Returns the
result, the list of backoff delays slept (in order), and the number of
host-API attempts made. -/
def gatherLoop (att : Nat → Attempt) :
    Nat → Nat → Option DiscoveryResult × List Nat × Nat
  | _, 0 => (none, [], 0)
  | attempt, remaining + 1 =>
    match att attempt with
    | .ok ft fc pl => (some ⟨ft, fc, pl⟩, [], 1)
    | .ghError _ =>
      if attempt < max_retries - 1 then
        let r := gatherLoop att (attempt + 1) remaining
        (r.1, 2 ^ attempt :: r.2.1, r.2.2 + 1)
      else
        (none, [], 1)

/-- `gather_repo_content_node` (src/discovery_agent.py lines 75-175):
the retry loop run from attempt 0 with `max_retries` iterations. -/
def gather_repo_content_node (att : Nat → Attempt) :
    Option DiscoveryResult × List Nat × Nat :=
  gatherLoop att 0 max_retries

/-- `run_discovery_agent` (src/discovery_agent.py lines 177-200): wraps
`gather_repo_content_node` and maps a falsy result to `None`. -/
def run_discovery_agent (att : Nat → Attempt) : Option DiscoveryResult :=
  (gather_repo_content_node att).1

end DiscoveryAgent

/-- C5: two consecutive transient host-API failures followed by a success
yield a valid snapshot after exactly the two exponential backoff delays
`2 ^ 0 = 1` and `2 ^ 1 = 2`; three consecutive failures (the ceiling of
`max_retries = 3` attempts) yield the absence value after the same two
delays, with exactly three attempts and no further retry. -/
theorem fetch_retry_behavior (att f : Nat → DiscoveryAgent.Attempt)
    (m0 m1 ft fc pl : String)
    (h0 : att 0 = .ghError m0) (h1 : att 1 = .ghError m1)
    (h2 : att 2 = .ok ft fc pl)
    (hf : ∀ n, ∃ m, f n = .ghError m) :
    DiscoveryAgent.gather_repo_content_node att = (some ⟨ft, fc, pl⟩, [1, 2], 3)
    ∧ DiscoveryAgent.gather_repo_content_node f = (none, [1, 2], 3) := by
  obtain ⟨a0, e0⟩ := hf 0
  obtain ⟨a1, e1⟩ := hf 1
  obtain ⟨a2, e2⟩ := hf 2
  constructor <;>
    simp [DiscoveryAgent.gather_repo_content_node, DiscoveryAgent.gatherLoop,
      DiscoveryAgent.max_retries, h0, h1, h2, e0, e1, e2]

/-- C5 witness: the retry behaviour evaluated at concrete oracles. -/
theorem fetch_retry_behavior_witness :
    DiscoveryAgent.gather_repo_content_node
        (fun n => if n ≤ 1 then .ghError "boom" else .ok "t" "c" "Python")
      = (some ⟨"t", "c", "Python"⟩, [1, 2], 3)
    ∧ DiscoveryAgent.gather_repo_content_node (fun _ => .ghError "boom")
      = (none, [1, 2], 3) :=
  fetch_retry_behavior
    (fun n => if n ≤ 1 then .ghError "boom" else .ok "t" "c" "Python")
    (fun _ => .ghError "boom") "boom" "boom" "t" "c" "Python"
    rfl rfl rfl (fun _ => ⟨"boom", rfl⟩)

namespace CodeAnalysisAgent

/-! ## Code analysis agent (src/code_analysis_agent.py)

The agent's langgraph has entry node `analyze_code`, an unconditional edge
`analyze_code → reflect_on_analysis`, and a conditional edge out of
`reflect_on_analysis` driven by `should_continue` (loop back while the
iteration counter is below the ceiling, else `END`).  Each node invokes
the LLM once and returns the update
`{analysis_result: response, iteration: iteration + 1}`. -/

/-- `AnalysisState` TypedDict. -/
structure AnalysisState where
  file_tree : String
  file_contents : String
  programming_language : String
  analysis_result : String
  iteration : Nat
  human_input : String
deriving Repr, DecidableEq

/-- `analyze_code` with the LLM response text supplied by the oracle:
stores the response and increments the iteration counter by 1. -/
def analyze_code (resp : String) (s : AnalysisState) : AnalysisState :=
  { s with analysis_result := resp, iteration := s.iteration + 1 }

/-- `reflect_on_analysis`: same state update as `analyze_code` (only the
prompt text, which does not touch the state, differs). -/
def reflect_on_analysis (resp : String) (s : AnalysisState) : AnalysisState :=
  { s with analysis_result := resp, iteration := s.iteration + 1 }

/-- `should_continue` (lines 287-291): `true` encodes returning `END`,
`false` encodes routing back to `reflect_on_analysis`. -/
def should_continue (s : AnalysisState) : Bool :=
  decide (s.iteration ≥ 1)

/-- The conditional cycle on `reflect_on_analysis`: run the node (the
oracle index is the global LLM call number), then either exit via
`should_continue` or loop.  Returns the final state and the number of
reflection calls made; `fuel` bounds the number of loop turns and all
claims hold for every sufficient fuel. -/
def reflectLoop (o : Nat → String) : Nat → Nat → AnalysisState → AnalysisState × Nat
  | 0, _, s => (s, 0)
  | fuel + 1, idx, s =>
    let s1 := reflect_on_analysis (o idx) s
    if should_continue s1 then
      (s1, 1)
    else
      let r := reflectLoop o fuel (idx + 1) s1
      (r.1, r.2 + 1)

/-- `run_code_analysis_agent` (lines 293-340), up to the PDF side effect:
build the initial state, run `analyze_code`, then the reflection cycle.
Returns the final graph state and the total number of LLM calls made. -/
def run_code_analysis_agent (o : Nat → String) (fuel : Nat)
    (file_tree file_contents programming_language human_input : String) :
    AnalysisState × Nat :=
  let s0 : AnalysisState :=
    { file_tree := file_tree, file_contents := file_contents,
      programming_language := programming_language, analysis_result := "",
      iteration := 0, human_input := human_input }
  let s1 := analyze_code (o 0) s0
  let r := reflectLoop o fuel 1 s1
  (r.1, r.2 + 1)

/-- The result collection of `run_code_analysis_agent` (lines 322-334):
`for i in range(1, iteration): append(analysis_result)` followed by one
more `append(analysis_result)` — every entry is the final state's
`analysis_result`. -/
def collect_analysis_results (final : AnalysisState) : List String :=
  (List.range (final.iteration - 1)).map (fun _ => final.analysis_result)
    ++ [final.analysis_result]

/-- The reflection cycle increments the iteration counter by exactly the
number of reflection calls it makes. -/
theorem analysis_reflectLoop_iteration_calls (o : Nat → String) :
    ∀ fuel idx s, ((reflectLoop o fuel idx s).1).iteration
      = s.iteration + (reflectLoop o fuel idx s).2 := by
  intro fuel
  induction fuel with
  | zero => intro idx s; simp [reflectLoop]
  | succ n ih =>
    intro idx s
    simp only [reflectLoop]
    split
    · simp [reflect_on_analysis]
    · have h := ih (idx + 1) (reflect_on_analysis (o idx) s)
      simp only [reflect_on_analysis] at h ⊢
      omega

end CodeAnalysisAgent

namespace RecommendationAgent

/-! ## Recommendation agent (src/recommendation_agent.py)

Same graph shape as the analysis agent: entry `generate_recommendations`,
an unconditional edge to `reflect_on_recommendations`, and a conditional
cycle on `reflect_on_recommendations` driven by `should_continue`, whose
ceiling is 2 instead of 1. -/

/-- `RecommendationState` TypedDict. -/
structure RecommendationState where
  file_tree : String
  file_contents : String
  programming_languages : String
  analysis_result : String
  recommendations : String
  iteration : Nat
deriving Repr, DecidableEq

/-- `generate_recommendations`: stores the LLM response and increments the
iteration counter by 1. -/
def generate_recommendations (resp : String) (s : RecommendationState) :
    RecommendationState :=
  { s with recommendations := resp, iteration := s.iteration + 1 }

/-- `reflect_on_recommendations`: same state update as
`generate_recommendations`. -/
def reflect_on_recommendations (resp : String) (s : RecommendationState) :
    RecommendationState :=
  { s with recommendations := resp, iteration := s.iteration + 1 }

/-- `should_continue` (lines 221-225): `true` encodes returning `END`. -/
def should_continue (s : RecommendationState) : Bool :=
  decide (s.iteration ≥ 2)

/-- The conditional cycle on `reflect_on_recommendations`; returns the
final state and the number of reflection calls made. -/
def reflectLoop (o : Nat → String) :
    Nat → Nat → RecommendationState → RecommendationState × Nat
  | 0, _, s => (s, 0)
  | fuel + 1, idx, s =>
    let s1 := reflect_on_recommendations (o idx) s
    if should_continue s1 then
      (s1, 1)
    else
      let r := reflectLoop o fuel (idx + 1) s1
      (r.1, r.2 + 1)

/-- `run_recommendation_agent` (lines 244-276), up to the PDF side effect:
returns the final graph state and the total number of LLM calls made. -/
def run_recommendation_agent (o : Nat → String) (fuel : Nat)
    (file_tree file_contents programming_languages analysis_result : String) :
    RecommendationState × Nat :=
  let s0 : RecommendationState :=
    { file_tree := file_tree, file_contents := file_contents,
      programming_languages := programming_languages,
      analysis_result := analysis_result, recommendations := "",
      iteration := 0 }
  let s1 := generate_recommendations (o 0) s0
  let r := reflectLoop o fuel 1 s1
  (r.1, r.2 + 1)

/-- The result collection of `run_recommendation_agent` (lines 259-271):
every entry is the final state's `recommendations` text. -/
def collect_recommendations_results (final : RecommendationState) : List String :=
  (List.range (final.iteration - 1)).map (fun _ => final.recommendations)
    ++ [final.recommendations]

/-- The reflection cycle increments the iteration counter by exactly the
number of reflection calls it makes. -/
theorem rec_reflectLoop_iteration_calls (o : Nat → String) :
    ∀ fuel idx s, ((reflectLoop o fuel idx s).1).iteration
      = s.iteration + (reflectLoop o fuel idx s).2 := by
  intro fuel
  induction fuel with
  | zero => intro idx s; simp [reflectLoop]
  | succ n ih =>
    intro idx s
    simp only [reflectLoop]
    split
    · simp [reflect_on_recommendations]
    · have h := ih (idx + 1) (reflect_on_recommendations (o idx) s)
      simp only [reflect_on_recommendations] at h ⊢
      omega

end RecommendationAgent

/-- C1 counterexample: the Recommendation stage does NOT perform the
initial generation call plus 2 extra reflection rounds.  Its ceiling of 2
bounds the total iteration counter, so after the initial
`generate_recommendations` call the unconditional edge runs
`reflect_on_recommendations` once (counter 2), and `should_continue`
immediately exits: 2 total LLM calls, i.e. 1 extra reflection round,
not 2 (which would be 3 calls). -/
theorem recommendation_extra_rounds_counterexample :
    (RecommendationAgent.run_recommendation_agent
        (fun _ => "x") 5 "t" "c" "Python" "a").2 = 2
    ∧ ¬ (RecommendationAgent.run_recommendation_agent
        (fun _ => "x") 5 "t" "c" "Python" "a").2 = 3 := by
  constructor
  · rfl
  · decide

/-- C1 (amended): for every LLM oracle and every sufficient fuel, the
Analysis stage performs its initial generation call plus exactly 1 extra
reflection round (2 calls in total, final counter 2), and the
Recommendation stage likewise performs its initial generation call plus
exactly 1 extra reflection round (2 calls in total, final counter 2); each
loop exits when its counter has reached or passed the stage's ceiling
(1 for Analysis, 2 for Recommendation). -/
theorem reflection_loop_rounds (o : Nat → String) (fuel : Nat)
    (ft fc pl hi ar : String) (h : 1 ≤ fuel) :
    (CodeAnalysisAgent.run_code_analysis_agent o fuel ft fc pl hi).2 = 2
    ∧ ((CodeAnalysisAgent.run_code_analysis_agent o fuel ft fc pl hi).1).iteration = 2
    ∧ (RecommendationAgent.run_recommendation_agent o fuel ft fc pl ar).2 = 2
    ∧ ((RecommendationAgent.run_recommendation_agent o fuel ft fc pl ar).1).iteration = 2 := by
  obtain ⟨f, rfl⟩ : ∃ f, fuel = f + 1 := ⟨fuel - 1, by omega⟩
  refine ⟨?_, ?_, ?_, ?_⟩ <;>
    simp [CodeAnalysisAgent.run_code_analysis_agent,
      RecommendationAgent.run_recommendation_agent,
      CodeAnalysisAgent.reflectLoop, RecommendationAgent.reflectLoop,
      CodeAnalysisAgent.analyze_code, RecommendationAgent.generate_recommendations,
      CodeAnalysisAgent.reflect_on_analysis,
      RecommendationAgent.reflect_on_recommendations,
      CodeAnalysisAgent.should_continue, RecommendationAgent.should_continue]

/-- C1 witness: the amended round counts at a concrete oracle and fuel. -/
theorem reflection_loop_rounds_witness :
    (CodeAnalysisAgent.run_code_analysis_agent
        (fun _ => "x") 5 "t" "c" "Python" "").2 = 2
    ∧ ((CodeAnalysisAgent.run_code_analysis_agent
        (fun _ => "x") 5 "t" "c" "Python" "").1).iteration = 2
    ∧ (RecommendationAgent.run_recommendation_agent
        (fun _ => "x") 5 "t" "c" "Python" "a").2 = 2
    ∧ ((RecommendationAgent.run_recommendation_agent
        (fun _ => "x") 5 "t" "c" "Python" "a").1).iteration = 2 :=
  reflection_loop_rounds (fun _ => "x") 5 "t" "c" "Python" "" "a" (by decide)

/-- C4: in both stages every generation call (`analyze_code`,
`reflect_on_analysis`, `generate_recommendations`,
`reflect_on_recommendations`) increments the iteration counter by exactly
1, nothing else modifies it, and at stage exit the counter equals exactly
the number of generation calls made in the stage — for every oracle and
every fuel. -/
theorem iteration_counter_counts_calls (o : Nat → String) (fuel : Nat)
    (ft fc pl hi ar resp : String) (sa : CodeAnalysisAgent.AnalysisState)
    (sr : RecommendationAgent.RecommendationState) :
    (CodeAnalysisAgent.analyze_code resp sa).iteration = sa.iteration + 1
    ∧ (CodeAnalysisAgent.reflect_on_analysis resp sa).iteration = sa.iteration + 1
    ∧ (RecommendationAgent.generate_recommendations resp sr).iteration = sr.iteration + 1
    ∧ (RecommendationAgent.reflect_on_recommendations resp sr).iteration = sr.iteration + 1
    ∧ ((CodeAnalysisAgent.run_code_analysis_agent o fuel ft fc pl hi).1).iteration
      = (CodeAnalysisAgent.run_code_analysis_agent o fuel ft fc pl hi).2
    ∧ ((RecommendationAgent.run_recommendation_agent o fuel ft fc pl ar).1).iteration
      = (RecommendationAgent.run_recommendation_agent o fuel ft fc pl ar).2 := by
  refine ⟨rfl, rfl, rfl, rfl, ?_, ?_⟩
  · have h := CodeAnalysisAgent.analysis_reflectLoop_iteration_calls o fuel 1
      (CodeAnalysisAgent.analyze_code (o 0)
        { file_tree := ft, file_contents := fc, programming_language := pl,
          analysis_result := "", iteration := 0, human_input := hi })
    simp only [CodeAnalysisAgent.run_code_analysis_agent,
      CodeAnalysisAgent.analyze_code] at h ⊢
    omega
  · have h := RecommendationAgent.rec_reflectLoop_iteration_calls o fuel 1
      (RecommendationAgent.generate_recommendations (o 0)
        { file_tree := ft, file_contents := fc, programming_languages := pl,
          analysis_result := ar, recommendations := "", iteration := 0 })
    simp only [RecommendationAgent.run_recommendation_agent,
      RecommendationAgent.generate_recommendations] at h ⊢
    omega

/-- C3 counterexample: with an oracle whose round outputs are "A" (initial
round) and "B" (reflection round), the sequence handed to the report
renderer is two copies of the final round's text, not the per-round
outputs: the collection loop appends `final_state.analysis_result` every
time, so the first round's own output "A" is lost. -/
theorem iteration_records_counterexample :
    CodeAnalysisAgent.collect_analysis_results
        (CodeAnalysisAgent.run_code_analysis_agent
          (fun n => if n = 0 then "A" else "B") 5 "t" "c" "Python" "").1
      = ["B", "B"]
    ∧ ¬ CodeAnalysisAgent.collect_analysis_results
        (CodeAnalysisAgent.run_code_analysis_agent
          (fun n => if n = 0 then "A" else "B") 5 "t" "c" "Python" "").1
      = ["A", "B"] := by
  constructor
  · rfl
  · decide

/-- C3 (amended): in both stages the sequence passed to the report
renderer has exactly one entry per generation round (its length equals the
final iteration counter), but every entry is the FINAL round's output text
(the oracle's response to call 1); no deduplication is performed, so the
duplicate copies are kept.  A state with iteration counter 1 yields
exactly one record, namely its own result text. -/
theorem iteration_records_final_round (o : Nat → String) (fuel : Nat)
    (ft fc pl hi ar : String) (sa : CodeAnalysisAgent.AnalysisState)
    (h : 1 ≤ fuel) (h1 : sa.iteration = 1) :
    CodeAnalysisAgent.collect_analysis_results
        (CodeAnalysisAgent.run_code_analysis_agent o fuel ft fc pl hi).1
      = [o 1, o 1]
    ∧ RecommendationAgent.collect_recommendations_results
        (RecommendationAgent.run_recommendation_agent o fuel ft fc pl ar).1
      = [o 1, o 1]
    ∧ CodeAnalysisAgent.collect_analysis_results sa = [sa.analysis_result] := by
  obtain ⟨f, rfl⟩ : ∃ f, fuel = f + 1 := ⟨fuel - 1, by omega⟩
  refine ⟨?_, ?_, ?_⟩
  · simp [CodeAnalysisAgent.run_code_analysis_agent,
      CodeAnalysisAgent.reflectLoop, CodeAnalysisAgent.analyze_code,
      CodeAnalysisAgent.reflect_on_analysis, CodeAnalysisAgent.should_continue,
      CodeAnalysisAgent.collect_analysis_results, List.range_succ]
  · simp [RecommendationAgent.run_recommendation_agent,
      RecommendationAgent.reflectLoop,
      RecommendationAgent.generate_recommendations,
      RecommendationAgent.reflect_on_recommendations,
      RecommendationAgent.should_continue,
      RecommendationAgent.collect_recommendations_results, List.range_succ]
  · simp [CodeAnalysisAgent.collect_analysis_results, h1]

/-- C3 witness: the amended record collection at a concrete oracle, fuel
and single-round state. -/
theorem iteration_records_final_round_witness :
    CodeAnalysisAgent.collect_analysis_results
        (CodeAnalysisAgent.run_code_analysis_agent
          (fun n => if n = 0 then "A" else "B") 5 "t" "c" "Python" "").1
      = ["B", "B"]
    ∧ RecommendationAgent.collect_recommendations_results
        (RecommendationAgent.run_recommendation_agent
          (fun n => if n = 0 then "A" else "B") 5 "t" "c" "Python" "a").1
      = ["B", "B"]
    ∧ CodeAnalysisAgent.collect_analysis_results
        { file_tree := "t", file_contents := "c", programming_language := "Python",
          analysis_result := "R", iteration := 1, human_input := "" }
      = ["R"] := by
  have h := iteration_records_final_round (fun n => if n = 0 then "A" else "B")
    5 "t" "c" "Python" "" "a"
    { file_tree := "t", file_contents := "c", programming_language := "Python",
      analysis_result := "R", iteration := 1, human_input := "" }
    (by decide) rfl
  exact h

namespace AgenticWorkflow

/-! ## Agentic workflow (src/agentic_workflow.py)

`StateGraph(AgenticWorkflowState)` with three nodes and simple linear
edges `run_discovery → run_code_analysis → run_recommendation → END`
(the file's `should_continue` is defined but never wired into the graph).
`graph.invoke` is modelled as sequential node application; a node that
returns `None` contributes no state update (langgraph's semantics for a
`None` return; the node's in-place mutations of its state argument are
not written back to the graph channels).  Each node result is paired with
the list of console messages it prints and the number of LLM generation
calls it makes. -/

/-- `AgenticWorkflowState` TypedDict. -/
structure AgenticWorkflowState where
  repo_url : String
  file_tree : String
  file_contents : String
  programming_languages : String
  analysis_result : String
  recommendations : String
  iteration : Nat
  pdf_path : String
deriving Repr, DecidableEq

/-- `run_discovery` (lines 29-47): on a successful discovery result, copy
the snapshot fields into the state; if the copied `file_contents` is
empty, print and return `None`; if discovery failed, print and return
`None`.  The discovery outcome is the abstracted Repository Fetcher
result. -/
def run_discovery (disc : Option DiscoveryAgent.DiscoveryResult)
    (s : AgenticWorkflowState) : Option AgenticWorkflowState × List String :=
  match disc with
  | some d =>
    let s1 := { s with file_tree := d.file_tree, file_contents := d.file_contents,
                       programming_languages := d.programming_languages }
    if s1.file_contents = "" then
      (none, ["No code found in the repository."])
    else
      (some s1, [])
  | none => (none, ["Repository not found or access denied: " ++ s.repo_url])

/-- `run_code_analysis` (lines 49-65): skip (printing, returning `None`,
making no LLM call) when `file_contents` is empty; otherwise run the
analysis agent and store its `analysis_result`.  The agent's returned
dict is its final graph state, which always carries an `analysis_result`
key and never a `pdf_path` key, so only `analysis_result` is written. -/
def run_code_analysis (o : Nat → String) (fuel : Nat)
    (s : AgenticWorkflowState) :
    Option AgenticWorkflowState × List String × Nat :=
  if s.file_contents = "" then
    (none, ["No code found, skipping analysis stage"], 0)
  else
    let r := CodeAnalysisAgent.run_code_analysis_agent o fuel
      s.file_tree s.file_contents s.programming_languages ""
    (some { s with analysis_result := r.1.analysis_result }, [], r.2)

/-- `run_recommendation` (lines 67-85): skip (printing, returning
`None`, making no LLM call) when `analysis_result` is empty; otherwise
run the recommendation agent.  The agent's returned dict is
`{pdf_path, state}`, so `state["recommendations"]` is set to
`.get("recommendations", "") = ""`, `state["pdf_path"]` is set, and the
bare `return` inside the `pdf_path` branch then returns `None` — the
node therefore never yields a state update to the graph. -/
def run_recommendation (o : Nat → String) (fuel : Nat)
    (s : AgenticWorkflowState) :
    Option AgenticWorkflowState × List String × Nat :=
  if s.analysis_result = "" then
    (none, ["No analysis result available, skipping recommendations"], 0)
  else
    let r := RecommendationAgent.run_recommendation_agent o fuel
      s.file_tree s.file_contents s.programming_languages s.analysis_result
    (none, [], r.2)

/-- `graph.invoke`: apply the three nodes along the linear edges, a `None`
node result leaving the state unchanged.  Returns the final state, the
concatenated console messages and the total number of LLM calls. -/
def graph_invoke (disc : Option DiscoveryAgent.DiscoveryResult)
    (o : Nat → String) (fuel : Nat) (s0 : AgenticWorkflowState) :
    AgenticWorkflowState × List String × Nat :=
  let d := run_discovery disc s0
  let s1 := d.1.getD s0
  let a := run_code_analysis o fuel s1
  let s2 := a.1.getD s1
  let r := run_recommendation o fuel s2
  let s3 := r.1.getD s2
  (s3, d.2 ++ a.2.1 ++ r.2.1, a.2.2 + r.2.2)

/-- URL normalisation at the top of `run_agentic_workflow`: strip
whitespace, one trailing slash, and a trailing `.git`. -/
def normalize_repo_url (u : String) : String :=
  let u1 := trimStr u
  let u2 := if u1.endsWith "/" then u1.dropRight 1 else u1
  if u2.endsWith ".git" then u2.dropRight 4 else u2

/-- `run_agentic_workflow` (lines 114-148): build the initial state
(iteration 1 when resuming, else 0), invoke the graph, and return the
final state.  The `except` branch that returns `None` fires only when a
node raises; in this total model (LLM and fetcher abstracted as total
oracles) the graph does not raise, so the result is always `some`. -/
def run_agentic_workflow (disc : Option DiscoveryAgent.DiscoveryResult)
    (o : Nat → String) (fuel : Nat) (repo_url : String) (resume : Bool) :
    Option AgenticWorkflowState × List String × Nat :=
  let url := normalize_repo_url repo_url
  let s0 : AgenticWorkflowState :=
    { repo_url := url, file_tree := "", file_contents := "",
      programming_languages := "", analysis_result := "",
      recommendations := "", iteration := if resume then 1 else 0,
      pdf_path := "" }
  let r := graph_invoke disc o fuel s0
  (some r.1, r.2.1, r.2.2)

end AgenticWorkflow

/-- C2 counterexample: for a discovery result whose `file_contents` is the
empty string, `run_agentic_workflow` does NOT return the absence value —
every node returns `None`, which langgraph treats as an empty update, so
`graph.invoke` completes and the (unchanged) final state is returned.
The Analysis stage's generation client is indeed never invoked (0 LLM
calls) and the printed messages are deterministic — including the
Recommendation node's skip message, showing that node is still entered. -/
theorem empty_repository_counterexample :
    ¬ (AgenticWorkflow.run_agentic_workflow (some ⟨"", "", ""⟩)
        (fun _ => "x") 5 "u" false).1 = none
    ∧ (AgenticWorkflow.run_agentic_workflow (some ⟨"", "", ""⟩)
        (fun _ => "x") 5 "u" false).2.2 = 0
    ∧ (AgenticWorkflow.run_agentic_workflow (some ⟨"", "", ""⟩)
        (fun _ => "x") 5 "u" false).2.1
      = ["No code found in the repository.",
         "No code found, skipping analysis stage",
         "No analysis result available, skipping recommendations"] := by
  refine ⟨?_, rfl, rfl⟩
  decide

/-- C2 (amended): for every discovery result with empty `file_contents`,
every oracle, fuel and URL, the workflow makes zero generation calls
(the Analysis client is never invoked), prints exactly the three
deterministic skip messages, and returns `some` final state whose
analysis and recommendation fields are empty — rather than the absence
value `None`. -/
theorem empty_repository_behavior (d : DiscoveryAgent.DiscoveryResult)
    (o : Nat → String) (fuel : Nat) (u : String) (resume : Bool)
    (h : d.file_contents = "") :
    (AgenticWorkflow.run_agentic_workflow (some d) o fuel u resume).2.2 = 0
    ∧ (AgenticWorkflow.run_agentic_workflow (some d) o fuel u resume).2.1
      = ["No code found in the repository.",
         "No code found, skipping analysis stage",
         "No analysis result available, skipping recommendations"]
    ∧ ∃ s, (AgenticWorkflow.run_agentic_workflow (some d) o fuel u resume).1 = some s
        ∧ s.analysis_result = "" ∧ s.recommendations = "" := by
  refine ⟨?_, ?_, ?_⟩ <;>
    simp [AgenticWorkflow.run_agentic_workflow, AgenticWorkflow.graph_invoke,
      AgenticWorkflow.run_discovery, AgenticWorkflow.run_code_analysis,
      AgenticWorkflow.run_recommendation, h]

/-- C2 witness: the amended behaviour at a concrete empty snapshot. -/
theorem empty_repository_behavior_witness :
    (AgenticWorkflow.run_agentic_workflow (some ⟨"tree", "", "Python"⟩)
        (fun _ => "x") 5 "https://example.com/o/r" false).2.2 = 0
    ∧ (AgenticWorkflow.run_agentic_workflow (some ⟨"tree", "", "Python"⟩)
        (fun _ => "x") 5 "https://example.com/o/r" false).2.1
      = ["No code found in the repository.",
         "No code found, skipping analysis stage",
         "No analysis result available, skipping recommendations"]
    ∧ ∃ s, (AgenticWorkflow.run_agentic_workflow (some ⟨"tree", "", "Python"⟩)
        (fun _ => "x") 5 "https://example.com/o/r" false).1 = some s
        ∧ s.analysis_result = "" ∧ s.recommendations = "" :=
  empty_repository_behavior ⟨"tree", "", "Python"⟩ (fun _ => "x") 5
    "https://example.com/o/r" false rfl

/-- C9: no workflow stage mutates a `WorkflowState` field owned by an
earlier stage.  The Analysis node's applied update preserves the
repository locator, the three snapshot fields produced by Discovery, the
recommendations field, the iteration counter and the pdf path (it writes
at most its own `analysis_result`); the Recommendation node applies no
update at all to the graph state (its Python body mutates its local dict
and then returns `None`), so it preserves every field — in particular the
snapshot fields and the analysis text. -/
theorem stage_frame_conditions (o : Nat → String) (fuel : Nat)
    (s : AgenticWorkflow.AgenticWorkflowState) :
    (((AgenticWorkflow.run_code_analysis o fuel s).1.getD s).repo_url = s.repo_url
      ∧ ((AgenticWorkflow.run_code_analysis o fuel s).1.getD s).file_tree = s.file_tree
      ∧ ((AgenticWorkflow.run_code_analysis o fuel s).1.getD s).file_contents = s.file_contents
      ∧ ((AgenticWorkflow.run_code_analysis o fuel s).1.getD s).programming_languages
        = s.programming_languages
      ∧ ((AgenticWorkflow.run_code_analysis o fuel s).1.getD s).recommendations
        = s.recommendations
      ∧ ((AgenticWorkflow.run_code_analysis o fuel s).1.getD s).iteration = s.iteration
      ∧ ((AgenticWorkflow.run_code_analysis o fuel s).1.getD s).pdf_path = s.pdf_path)
    ∧ (AgenticWorkflow.run_recommendation o fuel s).1.getD s = s := by
  constructor
  · unfold AgenticWorkflow.run_code_analysis
    split <;> simp
  · unfold AgenticWorkflow.run_recommendation
    split <;> simp

namespace CodeAnalysisAgent

/-! ## Analysis report renderer (src/code_analysis_agent.py lines 135-258)

`save_analysis_to_pdf` builds a reportlab story — an ordered list of
styled flowables — from the analysis results and the project-info map,
then writes it to `analysis_reports/code_analysis_<timestamp>.pdf`.  The
story is modelled structurally; the styles are the five `ParagraphStyle`
objects the function creates. -/

/-- The paragraph styles created by `save_analysis_to_pdf`:
`title_style`, `header_style` (also used for iteration headers),
`dependency_table_style`, `content_style` and the red `dependency_style`
(the distinguishing colour style). -/
inductive AStyle where
  | title
  | header
  | depTableHeader
  | content
  | dependency
deriving Repr, DecidableEq

/-- A flowable appended to the analysis story: a paragraph with a style,
a spacer, or the hard-coded dependency table. -/
inductive ABlock where
  | par (text : String) (style : AStyle)
  | spacer (w h : Nat)
  | depTable (rows : List (List String))
deriving Repr, DecidableEq

/-- The hard-coded `dependency_data` table rows (lines 198-204). -/
def dependency_data : List (List String) :=
  [["Dependency Name", "Current Version", "Recommended Version"],
   ["Spring Boot", "2.7.5", "3.1.0"],
   ["Spring Security", "5.7.2", "6.1.1"],
   ["Hibernate", "6.1.1", "6.2.0"],
   ["PostgreSQL Driver", "42.3.6", "42.5.0"]]

/-- Classification of one blank-line-separated section (lines 243-253):
keyword sections ("dependency" / "package" / "vulnerabilities" anywhere in
the lowered text) get the red `dependency_style`; otherwise sections
starting with a heading marker get `header_style` with the text
`<b>...</b>`-wrapped after stripping markers and whitespace (the source's
`startswith('#') or startswith('###')` is `startswith('#')`); everything
else is body text in `content_style`. -/
def classify_analysis_section (sec : String) : ABlock :=
  if strContains (lowerStr sec) "dependency"
      || strContains (lowerStr sec) "package"
      || strContains (lowerStr sec) "vulnerabilities" then
    .par sec .dependency
  else if strStarts sec "#" then
    .par ("<b>" ++ trimStr (stripChar '#' sec) ++ "</b>") .header
  else
    .par sec .content

/-- Render the sections of one result: skip sections that are empty after
stripping, and append a `Spacer(1, 10)` after every rendered section. -/
def render_analysis_sections (secs : List String) : List ABlock :=
  secs.foldr
    (fun sec acc =>
      if (trimStr sec).isEmpty then acc
      else classify_analysis_section sec :: .spacer 1 10 :: acc)
    []

/-- Render the enumerated results (lines 236-254): per result an
`Analysis Iteration i` header, a spacer, then its classified sections. -/
def render_analysis_results : Nat → List String → List ABlock
  | _, [] => []
  | i, r :: rs =>
    (ABlock.par ("Analysis Iteration " ++ toString i) .header
      :: ABlock.spacer 1 12
      :: render_analysis_sections (splitSections r))
    ++ render_analysis_results (i + 1) rs

/-- The full story built by `save_analysis_to_pdf`: title, spacer, the
dependency-table section, the project-info lines, and the per-result
blocks. -/
def save_analysis_story (analysis_results : List String)
    (project_info : List (String × String)) : List ABlock :=
  [.par "Code Analysis Report" .title, .spacer 1 20,
   .par "Dependency Analysis" .depTableHeader, .spacer 1 12,
   .depTable dependency_data, .spacer 1 20]
  ++ project_info.map
      (fun kv => ABlock.par ("<b>" ++ kv.1 ++ ":</b> " ++ kv.2) .content)
  ++ [.spacer 1 20]
  ++ render_analysis_results 1 analysis_results

/-- `save_analysis_to_pdf`: the produced filename (built from the
timestamp under the `analysis_reports` output directory) and the story. -/
def save_analysis_to_pdf (analysis_results : List String)
    (project_info : List (String × String)) (timestamp : String) :
    String × List ABlock :=
  ("analysis_reports/code_analysis_" ++ timestamp ++ ".pdf",
   save_analysis_story analysis_results project_info)

end CodeAnalysisAgent

namespace RecommendationAgent

/-! ## Recommendation report renderer (src/recommendation_agent.py
lines 99-191)

`save_recommendations_to_pdf` has a different rule table from the
analysis renderer: code fences first, then headings split into a primary
(`header_style`, total marker count ≤ 2) and a secondary
(`subheader_style`) level, then body text with line breaks converted; it
has no keyword-colour rule at all. -/

/-- The paragraph styles created by `save_recommendations_to_pdf`:
`title_style`, `header_style`, `subheader_style`, `content_style` and
`code_style`. -/
inductive RStyle where
  | title
  | header
  | subheader
  | content
  | code
deriving Repr, DecidableEq

/-- A flowable appended to the recommendation story. -/
inductive RBlock where
  | par (text : String) (style : RStyle)
  | spacer (w h : Nat)
deriving Repr, DecidableEq

/-- Classification of one blank-line-separated section (lines 172-186):
sections containing a code fence render fence-stripped in `code_style`;
sections starting with `#` render marker- and whitespace-stripped, in
`header_style` when the total count of `#` characters is at most 2 and in
`subheader_style` otherwise; all other sections render in `content_style`
with newlines replaced by `<br/>`. -/
def classify_recommendation_section (sec : String) : RBlock :=
  if strContains sec fenceMarker then
    .par (strReplace sec fenceMarker "") .code
  else if strStarts sec "#" then
    let level := countChar '#' sec
    let cleaned := trimStr (stripChar '#' sec)
    if level ≤ 2 then .par cleaned .header else .par cleaned .subheader
  else
    .par (strReplace sec "\n" "<br/>") .content

/-- Render the sections of one result with trailing `Spacer(1, 10)`s. -/
def render_recommendation_sections (secs : List String) : List RBlock :=
  secs.foldr
    (fun sec acc =>
      if (trimStr sec).isEmpty then acc
      else classify_recommendation_section sec :: .spacer 1 10 :: acc)
    []

/-- Render the enumerated results (lines 163-187). -/
def render_recommendation_results : Nat → List String → List RBlock
  | _, [] => []
  | i, r :: rs =>
    (RBlock.par ("Recommendation Iteration " ++ toString i) .header
      :: RBlock.spacer 1 12
      :: render_recommendation_sections (splitSections r))
    ++ render_recommendation_results (i + 1) rs

/-- The full story built by `save_recommendations_to_pdf`. -/
def save_recommendations_story (recommendations_results : List String)
    (project_info : List (String × String)) : List RBlock :=
  [.par "Code Recommendations Report" .title, .spacer 1 20]
  ++ project_info.map
      (fun kv => RBlock.par ("<b>" ++ kv.1 ++ ":</b> " ++ kv.2) .content)
  ++ [.spacer 1 20]
  ++ render_recommendation_results 1 recommendations_results

/-- `save_recommendations_to_pdf`: the produced filename (under the
`recommendation_reports` output directory) and the story. -/
def save_recommendations_to_pdf (recommendations_results : List String)
    (project_info : List (String × String)) (timestamp : String) :
    String × List RBlock :=
  ("recommendation_reports/recommendations_" ++ timestamp ++ ".pdf",
   save_recommendations_story recommendations_results project_info)

end RecommendationAgent

/-- C6 counterexample: in the analysis renderer the segment `"### Title"`
is NOT rendered as a secondary-level heading whose text is exactly
`"Title"`: the renderer has a single heading style for every heading
depth (no primary/secondary choice by marker count), and the emitted text
is the bold-markup-wrapped `"<b>Title</b>"`, not `"Title"` — a one-marker
heading gets the very same style and wrapping. -/
theorem heading_secondary_counterexample :
    CodeAnalysisAgent.classify_analysis_section "### Title"
      = CodeAnalysisAgent.ABlock.par "<b>Title</b>" CodeAnalysisAgent.AStyle.header
    ∧ ¬ "<b>Title</b>" = "Title"
    ∧ CodeAnalysisAgent.classify_analysis_section "# Title"
      = CodeAnalysisAgent.ABlock.par "<b>Title</b>" CodeAnalysisAgent.AStyle.header := by
  refine ⟨by decide, by decide, by decide⟩

/-- C6 (amended): in the recommendation renderer the segment `"### Title"`
renders as a secondary-level (`subheader_style`) heading with text exactly
`"Title"`, the primary/secondary choice being made by the count of `#`
markers (`"## Title"` with count ≤ 2 gets the primary `header_style`);
the analysis renderer instead renders every heading — `"### Title"` and
`"# Title"` alike — with its single heading style and with the cleaned
text wrapped in bold markup. -/
theorem heading_rendering_amended :
    RecommendationAgent.classify_recommendation_section "### Title"
      = RecommendationAgent.RBlock.par "Title" RecommendationAgent.RStyle.subheader
    ∧ RecommendationAgent.classify_recommendation_section "## Title"
      = RecommendationAgent.RBlock.par "Title" RecommendationAgent.RStyle.header
    ∧ CodeAnalysisAgent.classify_analysis_section "### Title"
      = CodeAnalysisAgent.ABlock.par "<b>Title</b>" CodeAnalysisAgent.AStyle.header
    ∧ CodeAnalysisAgent.classify_analysis_section "# Title"
      = CodeAnalysisAgent.ABlock.par "<b>Title</b>" CodeAnalysisAgent.AStyle.header := by
  refine ⟨by decide, by decide, by decide, by decide⟩

/-- C7 counterexample: in the recommendation renderer a segment
containing the substring "dependency" is NOT rendered in a distinguishing
colour style with priority over other cues: that renderer has no keyword
rule (and no colour style at all), so a plain segment containing
"dependency" renders as ordinary body text, and a heading segment
containing "dependency" renders as a heading. -/
theorem dependency_color_counterexample :
    RecommendationAgent.classify_recommendation_section "a dependency here"
      = RecommendationAgent.RBlock.par "a dependency here"
          RecommendationAgent.RStyle.content
    ∧ RecommendationAgent.classify_recommendation_section "# dependency"
      = RecommendationAgent.RBlock.par "dependency"
          RecommendationAgent.RStyle.header := by
  refine ⟨by decide, by decide⟩

/-- C7 (amended): in the ANALYSIS renderer every segment containing
"dependency" anywhere (case-insensitively) is rendered in the
distinguishing red `dependency_style`, with priority over the heading and
body rules (the keyword test is the first branch); the recommendation
renderer has no such rule. -/
theorem dependency_color_analysis_renderer (sec : String)
    (h : strContains (lowerStr sec) "dependency" = true) :
    CodeAnalysisAgent.classify_analysis_section sec
      = CodeAnalysisAgent.ABlock.par sec CodeAnalysisAgent.AStyle.dependency := by
  unfold CodeAnalysisAgent.classify_analysis_section
  simp [h]

/-- C7 witness: the colour rule fires on a concrete heading-like segment
containing "Dependency" in mixed case. -/
theorem dependency_color_analysis_renderer_witness :
    CodeAnalysisAgent.classify_analysis_section "### Dependency Review"
      = CodeAnalysisAgent.ABlock.par "### Dependency Review"
          CodeAnalysisAgent.AStyle.dependency :=
  dependency_color_analysis_renderer "### Dependency Review" (by decide)

/-- C8: both report renderers are pure in their `(listOfTexts, metadata)`
inputs — the structural story of styled blocks they produce is a function
of those two inputs alone and is identical for any two timestamps (so two
runs on identical inputs produce identical block sequences); the
timestamp influences only the output filename.  The renderer definitions
take no LLM or network oracle, matching the absence of any generation
call in the source. -/
theorem renderer_deterministic (results : List String)
    (info : List (String × String)) (ts1 ts2 : String) :
    (CodeAnalysisAgent.save_analysis_to_pdf results info ts1).2
      = (CodeAnalysisAgent.save_analysis_to_pdf results info ts2).2
    ∧ (RecommendationAgent.save_recommendations_to_pdf results info ts1).2
      = (RecommendationAgent.save_recommendations_to_pdf results info ts2).2
    ∧ (CodeAnalysisAgent.save_analysis_to_pdf results info ts1).1
      = "analysis_reports/code_analysis_" ++ ts1 ++ ".pdf"
    ∧ (RecommendationAgent.save_recommendations_to_pdf results info ts1).1
      = "recommendation_reports/recommendations_" ++ ts1 ++ ".pdf" :=
  ⟨rfl, rfl, rfl, rfl⟩

namespace MainScript

/-! ## Top-level driver (src/main.py)

`main()` wraps everything in `try/except`.  After
`result = run_agentic_workflow(repo_url)` it executes, in order:

1. `print(f"Analysis saved to: ...")` with `result['pdf_path']` — a
   subscript of `result` BEFORE any truthiness test;
2. `if result:` — the same print again, then the email block, whose
   `success` stays `False` (both send calls are commented out), printing
   "Failed to send email";
3. `else:` — `print("Analysis failed - check repository access")`.

Subscripting `None` raises a `TypeError`, which the outer handler catches
and reports as `Error: <message>`.  The model makes the `else` branch an
explicit case so that its unreachability is a theorem, not a modelling
artifact. -/

/-- A Python exception value observed by `main`'s outer handler. -/
inductive PyErr where
  | typeError (msg : String)
deriving Repr, DecidableEq

/-- `str(e)` for the modelled exceptions. -/
def errText : PyErr → String
  | .typeError m => m

/-- The message of the `TypeError` raised by `None['pdf_path']`. -/
def none_subscript_msg : String :=
  "\x27NoneType\x27 object is not subscriptable"

/-- One console line printed by `main`, tagged by which print statement
produced it. -/
inductive OutLine where
  | saved (path : String)
  | emailFailed
  | analysisFailed
  | errorLine (msg : String)
deriving Repr, DecidableEq

/-- The console text of each tagged line. -/
def renderLine : OutLine → String
  | .saved p => "Analysis saved to: " ++ p
  | .emailFailed => "Failed to send email"
  | .analysisFailed => "Analysis failed - check repository access"
  | .errorLine m => "Error: " ++ m

/-- `result['pdf_path']` as `main` performs it on line 17: a successful
lookup on a dict, or a raised `TypeError` on `None`. -/
def pySubscriptPdf (result : Option AgenticWorkflow.AgenticWorkflowState) :
    Except PyErr String :=
  match result with
  | none => .error (.typeError none_subscript_msg)
  | some w => .ok w.pdf_path

/-- `main` (src/main.py lines 6-46) from the point where the workflow
result is available, abstracted over that result: the pre-test subscript,
then the `if result:`/`else` branches (a `some` state dict is non-empty
and hence truthy), with the outer `except` catching any raised error and
printing the generic error line. -/
def main_prints (result : Option AgenticWorkflow.AgenticWorkflowState) :
    List OutLine :=
  match pySubscriptPdf result with
  | .error e => [.errorLine (errText e)]
  | .ok p =>
    if result.isSome then
      [.saved p, .saved p, .emailFailed]
    else
      [.saved p, .analysisFailed]

end MainScript

/-- C10: whenever `run_agentic_workflow` returns the absence value, `main`
subscripts it before testing it, so the subscript raises and the outer
handler prints the generic error line built from the `TypeError` message;
and for every possible workflow result the dedicated failure branch
printing "Analysis failed - check repository access" is unreachable. -/
theorem main_failure_branch_unreachable :
    MainScript.main_prints none
      = [MainScript.OutLine.errorLine MainScript.none_subscript_msg]
    ∧ (∀ r, MainScript.OutLine.analysisFailed ∉ MainScript.main_prints r)
    ∧ MainScript.renderLine MainScript.OutLine.analysisFailed
      = "Analysis failed - check repository access" := by
  refine ⟨rfl, fun r => ?_, rfl⟩
  cases r <;>
    simp [MainScript.main_prints, MainScript.pySubscriptPdf, MainScript.errText]
